import Mathlib

/-!
# Verification of the AuthKit TanStack Start client token store

A shallow embedding of the client-side access-token lifecycle manager
(`TokenStore` in `src/client/tokenStore.ts`, plus the `useAccessToken`
reactive binding) of the `workos/authkit-tanstack-start` repository.

Tokens are modelled as an inductive type: a `jwt raw payload` value
represents a string `raw` that `decodeJwt` successfully decodes to
`payload`; a `nonJwt raw` value represents a string on which `decodeJwt`
throws.  JavaScript truthiness of a token string (the empty string is
falsy) is modelled by `Token.truthy`.  Time is an explicit parameter
`now` (seconds since epoch, the value of `Math.floor(Date.now() / 1000)`).

Asynchronous behaviour is modelled by a small-step machine: the store's
synchronous segments between `await` suspension points become atomic
steps, the single in-flight refresh promise becomes an `Inflight` record
holding the suspension point (`Phase`), the captured `previousToken`, the
`silent` flag and the list of attached callers, and each step emits a
trace of observable events (subscriber notifications, remote calls,
timer operations, cookie deletions).
-/

namespace AuthKit

/-- Decoded JWT claims relevant to the store: numeric `exp` and `iat`
(absent or non-numeric claims are `none`). -/
structure Payload where
  exp : Option Int
  iat : Option Int
deriving DecidableEq, Repr

/-- A token string.  `jwt raw payload` is a string that `decodeJwt`
decodes to `payload`; `nonJwt raw` is a string on which `decodeJwt`
throws (fewer than three dot-separated segments, or undecodable JSON). -/
inductive Token where
  | jwt (raw : String) (payload : Payload)
  | nonJwt (raw : String)
deriving DecidableEq, Repr

/-- The raw string a `Token` stands for. -/
def Token.rawStr : Token → String
  | .jwt s _ => s
  | .nonJwt s => s

/-- JavaScript truthiness of the token string (only the empty string is
falsy among strings). -/
def Token.truthy (t : Token) : Bool := t.rawStr ≠ ""

/-- Truthiness of a `string | undefined` value holding a token. -/
def tokenTruthy : Option Token → Bool
  | none => false
  | some t => t.truthy

/-- Embeds `decodeJwt` as a function into `Option`: `some payload` when decoding
succeeds, `none` when it throws. -/
def decodeJwt? : Token → Option Payload
  | .jwt _ p => some p
  | .nonJwt _ => none

/-- Errors captured by the store (the code wraps non-`Error` rejection
values into `Error` objects; only the message matters here). -/
abbrev Err := String

/-- TokenState: the externally observable snapshot of the store. -/
structure TokenState where
  token : Option Token
  loading : Bool
  error : Option Err
deriving DecidableEq, Repr

def TOKEN_EXPIRY_BUFFER_SECONDS : Int := 60
def MIN_REFRESH_DELAY_SECONDS : Int := 15
def MAX_REFRESH_DELAY_SECONDS : Int := 24 * 60 * 60
def RETRY_DELAY_SECONDS : Int := 300
def jwtCookieName : String := "workos-access-token"

/-- Result of `TokenStore.parseToken`. -/
structure TokenData where
  payload : Payload
  expiresAt : Int
  isExpiring : Bool
  timeUntilExpiry : Int
deriving DecidableEq, Repr

/-- Embeds `TokenStore.parseToken` (tokenStore.ts lines 193-224).  `now` is the
current time in whole seconds.  The JavaScript expression
`payload.iat || now` treats an `iat` of `0` as absent (falsy). -/
def parseToken (now : Int) (token : Option Token) : Option TokenData :=
  match token with
  | none => none
  | some t =>
    if ¬ t.truthy then none
    else
      match decodeJwt? t with
      | none => none
      | some payload =>
        match payload.exp with
        | none => none
        | some exp =>
          let timeUntilExpiry := exp - now
          let iatOrNow :=
            match payload.iat with
            | some i => if i = 0 then now else i
            | none => now
          let totalTokenLifetime := exp - iatOrNow
          let bufferSeconds : Int :=
            if totalTokenLifetime ≤ 300 then 30 else TOKEN_EXPIRY_BUFFER_SECONDS
          let isExpiring := exp < now + bufferSeconds
          some { payload := payload, expiresAt := exp,
                 isExpiring := isExpiring, timeUntilExpiry := timeUntilExpiry }

/-- Embeds `TokenStore.getRefreshDelay` (tokenStore.ts lines 110-118); the
result is in milliseconds. -/
def getRefreshDelay (timeUntilExpiry : Int) : Int :=
  if timeUntilExpiry ≤ TOKEN_EXPIRY_BUFFER_SECONDS then 0
  else
    min (max ((timeUntilExpiry - TOKEN_EXPIRY_BUFFER_SECONDS) * 1000)
          (MIN_REFRESH_DELAY_SECONDS * 1000))
      (MAX_REFRESH_DELAY_SECONDS * 1000)

/-- The cookie-deletion string written by `TokenStore.deleteCookie`
(tokenStore.ts lines 120-128). -/
def deletionString (isSecure : Bool) : String :=
  if isSecure then jwtCookieName ++ "=; SameSite=Lax; Max-Age=0; Secure"
  else jwtCookieName ++ "=; SameSite=Lax; Max-Age=0"

/-- Observable events emitted by store operations: subscriber
notifications (`setState` always rebuilds the snapshot object and calls
`notify`), the two remote calls, timer installs/cancels and cookie
deletions. -/
inductive Event where
  | notified (st : TokenState)
  | remoteGet
  | remoteRefresh
  | timerSet (delayMs : Int)
  | timerCleared
  | cookieDeleted (header : String)
deriving DecidableEq, Repr

/-- The private fields of a `TokenStore` instance.  `refreshTimeout`
records the delay of the currently pending timer (if any);
`refreshPromiseSet` records whether the `refreshPromise` field is
non-null; `listeners` are subscriber identities. -/
structure Store where
  state : TokenState
  listeners : List Nat
  refreshTimeout : Option Int
  refreshPromiseSet : Bool
  fastCookieConsumed : Bool
deriving DecidableEq, Repr

/-- A partial update passed to `setState` (`Partial<TokenState>`):
`some v` updates the field to `v`, `none` leaves it alone. -/
structure StateUpdate where
  token : Option (Option Token) := none
  loading : Option Bool := none
  error : Option (Option Err) := none

/-- Spreading a partial update over the current state
(the object spread of the updates over the current state). -/
def applyUpdate (st : TokenState) (u : StateUpdate) : TokenState :=
  { token := u.token.getD st.token
    loading := u.loading.getD st.loading
    error := u.error.getD st.error }

/-- Embeds `TokenStore.setState` (lines 91-94): rebuild the snapshot and notify
every subscriber. -/
def setState (s : Store) (u : StateUpdate) : Store × List Event :=
  let st := applyUpdate s.state u
  ({ s with state := st }, [Event.notified st])

/-- Embeds `TokenStore.scheduleRefresh` (lines 96-108): cancel any pending
timer, then install a timer whose delay is the fixed retry delay when
`timeUntilExpiry` is `undefined` and `getRefreshDelay timeUntilExpiry`
otherwise. -/
def scheduleRefresh (s : Store) (timeUntilExpiry : Option Int) : Store × List Event :=
  let (s1, ev1) :=
    if s.refreshTimeout.isSome then
      ({ s with refreshTimeout := none }, [Event.timerCleared])
    else (s, ([] : List Event))
  let delay :=
    match timeUntilExpiry with
    | none => RETRY_DELAY_SECONDS * 1000
    | some t => getRefreshDelay t
  ({ s1 with refreshTimeout := some delay }, ev1 ++ [Event.timerSet delay])

/-- The browser environment visible to the store: the value of the
`workos-access-token` cookie (if present) and whether the page is served
over https. -/
structure Browser where
  cookie : Option Token
  secure : Bool
deriving DecidableEq, Repr

/-- Embeds `TokenStore.deleteCookie` (lines 120-128): write the `Max-Age=0`
deletion header, which removes the cookie from the jar. -/
def deleteCookie (b : Browser) : Browser × List Event :=
  ({ b with cookie := none }, [Event.cookieDeleted (deletionString b.secure)])

/-- Embeds `TokenStore.getInitialTokenFromCookie` (lines 130-155), as run by the
constructor: read the fast cookie; if it holds a truthy value, delete the
cookie and return the value. -/
def getInitialTokenFromCookie (b : Browser) : Option Token × Browser × List Event :=
  match b.cookie with
  | none => (none, b, [])
  | some t =>
    if ¬ t.truthy then (none, b, [])
    else
      let (b1, ev) := deleteCookie b
      (some t, b1, ev)

/-- Embeds `TokenStore.consumeFastCookie` (lines 157-191): a no-op once
`fastCookieConsumed` is set; otherwise marks the flag, and when the
cookie holds a truthy value deletes the cookie and returns the value
when it differs from the cached token. -/
def consumeFastCookie (s : Store) (b : Browser) :
    Option Token × Store × Browser × List Event :=
  if s.fastCookieConsumed then (none, s, b, [])
  else
    match b.cookie with
    | none => (none, { s with fastCookieConsumed := true }, b, [])
    | some t =>
      if ¬ t.truthy then (none, { s with fastCookieConsumed := true }, b, [])
      else
        let s1 := { s with fastCookieConsumed := true }
        let (b1, ev) := deleteCookie b
        if some t ≠ s.state.token then (some t, s1, b1, ev)
        else (none, s1, b1, ev)

/-- Embeds `new TokenStore()` run in a browser context (lines 44-65): adopt the fast
cookie's value as the initial token if present, mark the bootstrap as
consumed, and schedule a renewal from the token's expiry when it parses. -/
def mkStore (now : Int) (b : Browser) : Store × Browser × List Event :=
  let (initialToken, b1, ev1) := getInitialTokenFromCookie b
  let s : Store :=
    { state := { token := initialToken, loading := false, error := none }
      listeners := []
      refreshTimeout := none
      refreshPromiseSet := false
      fastCookieConsumed := false }
  if tokenTruthy initialToken then
    let s1 := { s with fastCookieConsumed := true }
    match parseToken now initialToken with
    | some td =>
      let (s2, ev2) := scheduleRefresh s1 (some td.timeUntilExpiry)
      (s2, b1, ev1 ++ ev2)
    | none => (s1, b1, ev1)
  else (s, b1, ev1)

/-- Embeds `TokenStore.clearToken` (lines 230-236). -/
def clearToken (s : Store) : Store × List Event :=
  let (s1, ev1) := setState s { token := some none, error := some none, loading := some false }
  if s1.refreshTimeout.isSome then
    ({ s1 with refreshTimeout := none }, ev1 ++ [Event.timerCleared])
  else (s1, ev1)

/-- Suspension points of the async IIFE inside `TokenStore._refreshToken`
(lines 307-363).  `awaitGet` is the `await getAccessTokenAction()` of the
silent/no-previous-token branch (line 315); `awaitRefresh` is an
`await refreshAccessTokenAction()` whose result becomes `token` directly
(line 312 or line 333); `awaitRefreshSecond tokenSoFar` is the follow-up
`await refreshAccessTokenAction()` of line 327, where `tokenSoFar` is the
value `token` holds at that point. -/
inductive Phase where
  | awaitGet
  | awaitRefresh
  | awaitRefreshSecond (tokenSoFar : Option Token)
deriving DecidableEq, Repr

/-- The in-flight refresh operation: its suspension point, the `silent`
argument, the `previousToken` captured at entry, and the callers awaiting
the shared `refreshPromise`. -/
structure Inflight where
  phase : Phase
  silent : Bool
  prev : Option Token
  waiters : List Nat
deriving DecidableEq, Repr

instance {α β : Type} [DecidableEq α] [DecidableEq β] : DecidableEq (Except α β) := fun a b =>
  match a, b with
  | Except.ok x, Except.ok y =>
    if h : x = y then isTrue (by rw [h]) else isFalse (fun hh => h (Except.ok.inj hh))
  | Except.error x, Except.error y =>
    if h : x = y then isTrue (by rw [h]) else isFalse (fun hh => h (Except.error.inj hh))
  | Except.ok _, Except.error _ => isFalse (fun hh => Except.noConfusion hh)
  | Except.error _, Except.ok _ => isFalse (fun hh => Except.noConfusion hh)

/-- A store together with the in-flight refresh (the contents of the
`refreshPromise` field) and the settled results the attached callers have
received. -/
structure Machine where
  store : Store
  inflight : Option Inflight
  results : List (Nat × Except Err (Option Token))
deriving DecidableEq, Repr

/-- Tail of the success path of `_refreshToken` (lines 337-350 and the
`finally` of line 361): update state when the token changed or the call
was non-silent, reschedule from the new token's expiry when it parses,
null the refresh promise, and resolve every attached caller with the
token. -/
def finishSuccess (now : Int) (token : Option Token) (inf : Inflight)
    (s : Store) (m : Machine) (evAcc : List Event) : Machine × List Event :=
  let (s1, ev2) :=
    if token ≠ inf.prev ∨ ¬ inf.silent then
      setState s { token := some token, loading := some false, error := some none }
    else (s, [])
  let (s2, ev3) :=
    match parseToken now token with
    | some td => scheduleRefresh s1 (some td.timeUntilExpiry)
    | none => (s1, [])
  let s3 := { s2 with refreshPromiseSet := false }
  ({ store := s3
     inflight := none
     results := m.results ++ inf.waiters.map (fun c => (c, Except.ok token)) },
   evAcc ++ ev2 ++ ev3)

/-- Entry of `_refreshToken silent` by caller `c` (lines 294-307 up to the
first suspension point): when a refresh promise exists the caller attaches
to it; otherwise the caller captures `previousToken`, clears the error
(also raising `loading` when non-silent), starts the IIFE and parks it at
its first `await`, issuing the corresponding remote call. -/
def callRefreshStep (c : Nat) (silent : Bool) (m : Machine) : Machine × List Event :=
  match m.inflight with
  | some inf =>
    ({ m with inflight := some { inf with waiters := c :: inf.waiters } }, [])
  | none =>
    let prev := m.store.state.token
    let (s1, ev1) :=
      if ¬ silent then
        setState m.store { loading := some true, error := some none }
      else
        setState m.store { error := some none }
    let (phase, ev2) :=
      if ¬ silent then (Phase.awaitRefresh, [Event.remoteRefresh])
      else if ¬ tokenTruthy prev then (Phase.awaitGet, [Event.remoteGet])
      else (Phase.awaitRefresh, [Event.remoteRefresh])
    let s2 := { s1 with refreshPromiseSet := true }
    ({ store := s2
       inflight := some { phase := phase, silent := silent, prev := prev, waiters := [c] }
       results := m.results },
     ev1 ++ ev2)

/-- Truthiness of the JavaScript expression
`tokenData && tokenData.isExpiring` for a nullable `tokenData`. -/
def dataExpiring : Option TokenData → Bool
  | some td => td.isExpiring
  | none => false

/-- Resumption of the parked IIFE when the pending remote call resolves
with `tok` (lines 309-350).  From `awaitGet`: publish a truthy changed
token immediately, then either issue the follow-up forced refresh (when
the token is falsy or judged expiring) or finish.  From `awaitRefresh`:
finish with the result.  From `awaitRefreshSecond`: keep the previous
value when the forced refresh returned a falsy token, then finish. -/
def resolveOkStep (now : Int) (tok : Option Token) (m : Machine) : Machine × List Event :=
  match m.inflight with
  | none => (m, [])
  | some inf =>
    match inf.phase with
    | Phase.awaitGet =>
      let token := tok
      let tokenData := parseToken now token
      let (s1, ev1) :=
        if tokenTruthy token ∧ token ≠ inf.prev then
          setState m.store { token := some token, loading := some false, error := some none }
        else (m.store, [])
      if ¬ tokenTruthy token ∨ dataExpiring tokenData then
        ({ m with
            store := s1
            inflight := some { inf with phase := Phase.awaitRefreshSecond token } },
         ev1 ++ [Event.remoteRefresh])
      else
        finishSuccess now token inf s1 m ev1
    | Phase.awaitRefresh =>
      finishSuccess now tok inf m.store m []
    | Phase.awaitRefreshSecond tokenSoFar =>
      let token := if tokenTruthy tok then tok else tokenSoFar
      finishSuccess now token inf m.store m []

/-- Resumption of the parked IIFE when the pending remote call rejects
with `e` (the catch of lines 351-359 and the `finally` of line 361):
record the error without touching the token, schedule the fixed-delay
retry, null the refresh promise and reject every attached caller. -/
def resolveErrStep (now : Int) (e : Err) (m : Machine) : Machine × List Event :=
  match m.inflight with
  | none => (m, [])
  | some inf =>
    let (s1, ev1) := setState m.store { loading := some false, error := some (some e) }
    let (s2, ev2) := scheduleRefresh s1 none
    let s3 := { s2 with refreshPromiseSet := false }
    ({ store := s3
       inflight := none
       results := m.results ++ inf.waiters.map (fun c => (c, Except.error e)) },
     ev1 ++ ev2)

/-- An event-loop step: a caller entering the refresh path, the pending
remote call settling, or a synchronous `clearToken` call. -/
inductive RunStep where
  | callRefresh (c : Nat) (silent : Bool)
  | resolveOk (now : Int) (tok : Option Token)
  | resolveErr (now : Int) (e : Err)
  | clearTok
deriving DecidableEq, Repr

/-- Dispatch one step. -/
def stepM (m : Machine) : RunStep → Machine × List Event
  | RunStep.callRefresh c silent => callRefreshStep c silent m
  | RunStep.resolveOk now tok => resolveOkStep now tok m
  | RunStep.resolveErr now e => resolveErrStep now e m
  | RunStep.clearTok =>
    let (s, ev) := clearToken m.store
    ({ m with store := s }, ev)

/-- Run a sequence of steps, concatenating the emitted traces. -/
def runM (m : Machine) : List RunStep → Machine × List Event
  | [] => (m, [])
  | st :: rest =>
    let (m1, ev1) := stepM m st
    let (m2, ev2) := runM m1 rest
    (m2, ev1 ++ ev2)

/-- Outcome of the synchronous part of `TokenStore.getAccessToken`:
either a value returned without entering the refresh path, or delegation
to `refreshTokenSilently` (whose result the call returns). -/
inductive GetOutcome where
  | ret (t : Option Token)
  | refresh
deriving DecidableEq, Repr

/-- Embeds `TokenStore.getAccessToken` (lines 238-257) up to its possible
delegation to the shared refresh path: consume the fast cookie and adopt
its value if it produced one; otherwise return the cached token when it
parses as not expiring, or as-is when it is truthy but unparseable;
otherwise delegate. -/
def getAccessTokenStep (now : Int) (s : Store) (b : Browser) :
    GetOutcome × Store × Browser × List Event :=
  let (fastToken, s1, b1, ev1) := consumeFastCookie s b
  if tokenTruthy fastToken then
    let (s2, ev2) := setState s1 { token := some fastToken, loading := some false, error := some none }
    (GetOutcome.ret fastToken, s2, b1, ev1 ++ ev2)
  else
    match parseToken now s1.state.token with
    | some td =>
      if ¬ td.isExpiring then (GetOutcome.ret s1.state.token, s1, b1, ev1)
      else (GetOutcome.refresh, s1, b1, ev1)
    | none =>
      if tokenTruthy s1.state.token then (GetOutcome.ret s1.state.token, s1, b1, ev1)
      else (GetOutcome.refresh, s1, b1, ev1)

/-- The refs the `useAccessToken` hook keeps across renders:
`prevSessionRef` and `prevUserIdRef`. -/
structure HookRefs where
  prevSession : Option String
  prevUserId : Option String
deriving DecidableEq, Repr

/-- Actions the identity-change effect of `useAccessToken` performs,
beyond mutating the store via `clearToken`. -/
inductive HookAction where
  | setInitialLoading (b : Bool)
  | silentRefresh
deriving DecidableEq, Repr

/-- Embeds the identity-change effect of `useAccessToken`
(useAccessToken.ts, the first `useEffect`): when the user is absent, stop
the initial-loading flag, clear the store's token if a user was
previously present, reset the refs and return without any background
refresh; when a user is present, clear the store's token if the previous
session id or user id was defined and differs, update the refs, then
raise the initial-loading flag when a fetch will actually happen and kick
off the silent refresh.  `userId` is `user?.id`; `now` feeds the
`parseToken` call on the current snapshot token. -/
def identityEffect (user : Option String) (sessionId : Option String)
    (now : Int) (refs : HookRefs) (store : Store) :
    HookRefs × Store × List HookAction × List Event :=
  match user with
  | none =>
    let acts0 := [HookAction.setInitialLoading false]
    let (store1, ev1, _cleared) :=
      if refs.prevUserId ≠ none then
        let (s, ev) := clearToken store
        (s, ev, true)
      else (store, [], false)
    (⟨none, none⟩, store1, acts0, ev1)
  | some uid =>
    let userId : Option String := some uid
    let sessionChanged := refs.prevSession ≠ none ∧ refs.prevSession ≠ sessionId
    let userChanged := refs.prevUserId ≠ none ∧ refs.prevUserId ≠ userId
    let (store1, ev1) :=
      if sessionChanged ∨ userChanged then clearToken store
      else (store, [])
    let refs1 : HookRefs := ⟨sessionId, userId⟩
    let currentToken := store1.state.token
    let tokenData := if tokenTruthy currentToken then parseToken now currentToken else none
    let willActuallyFetch := ¬ tokenTruthy currentToken ∨ dataExpiring tokenData
    let acts :=
      (if willActuallyFetch then [HookAction.setInitialLoading true] else []) ++
        [HookAction.silentRefresh]
    (refs1, store1, acts, ev1)

/-- Whether an event is a remote call (to `getAccessTokenAction` or
`refreshAccessTokenAction`). -/
def isRemote : Event → Bool
  | Event.remoteGet => true
  | Event.remoteRefresh => true
  | _ => false

/-- Number of remote calls recorded in a trace. -/
def remoteCalls (ev : List Event) : Nat := (ev.filter isRemote).length

/-- Whether an event is a subscriber notification. -/
def isNotify : Event → Bool
  | Event.notified _ => true
  | _ => false

/-- Number of subscriber notifications recorded in a trace. -/
def notifyCount (ev : List Event) : Nat := (ev.filter isNotify).length

/-- Concrete fixture: a long-lived JWT. -/
def tokA : Token := Token.jwt "tokA" ⟨some 1000000000, some 999996400⟩

/-- Concrete fixture: a non-JWT (unparseable) token string. -/
def rawTok : Token := Token.nonJwt "raw-token"

/-- Concrete fixture: an empty store (bootstrap already consumed, no
cookie interaction pending). -/
def baseStore : Store :=
  { state := { token := none, loading := false, error := none }
    listeners := []
    refreshTimeout := none
    refreshPromiseSet := false
    fastCookieConsumed := true }

/-- Concrete fixture: machine over the empty store. -/
def baseMachine : Machine := { store := baseStore, inflight := none, results := [] }

/-- Concrete fixture: the empty store caching token `t`. -/
def storeWith (t : Token) : Store :=
  { baseStore with state := { token := some t, loading := false, error := none } }

/-- Concrete fixture: machine whose store caches token `t`. -/
def machineWith (t : Token) : Machine :=
  { baseMachine with store := storeWith t }

/-- Concrete fixture: a browser with no fast cookie, on http. -/
def baseBrowser : Browser := { cookie := none, secure := false }

/-- Restates claim C4's buffer formula in the claim's own words, for
comparison with `parseToken`: `lifetime = exp - (iat if present else
now)`, `buffer = 30 if lifetime <= 300 else 60`, `isExpiring = exp < now
+ buffer`. -/
def claimC4IsExpiring (now exp : Int) (iat : Option Int) : Bool :=
  let lifetime := exp - iat.getD now
  let buffer : Int := if lifetime ≤ 300 then 30 else 60
  decide (exp < now + buffer)

/-- Concrete fixture: a store caching the opaque token with a silent
refresh in flight that captured that token as `previousToken`. -/
def silentInflightMachine : Machine :=
  { store := { storeWith rawTok with refreshPromiseSet := true }
    inflight := some { phase := Phase.awaitRefresh, silent := true,
                       prev := some rawTok, waiters := [1] }
    results := [] }

/-- Number of calls to the cheap `getAccessTokenAction` in a trace. -/
def getCalls (ev : List Event) : Nat :=
  (ev.filter fun e => match e with | Event.remoteGet => true | _ => false).length

/-- Number of calls to the forced `refreshAccessTokenAction` in a trace. -/
def forcedCalls (ev : List Event) : Nat :=
  (ev.filter fun e => match e with | Event.remoteRefresh => true | _ => false).length

theorem remoteCalls_append (a b : List Event) :
    remoteCalls (a ++ b) = remoteCalls a + remoteCalls b := by
  simp [remoteCalls, List.filter_append]

theorem remoteCalls_nil : remoteCalls [] = 0 := rfl

theorem remoteCalls_notified (st : TokenState) (rest : List Event) :
    remoteCalls (Event.notified st :: rest) = remoteCalls rest := by
  simp [remoteCalls, isRemote]

theorem remoteCalls_scheduleRefresh (s : Store) (t : Option Int) :
    remoteCalls (scheduleRefresh s t).2 = 0 := by
  unfold scheduleRefresh
  by_cases h : s.refreshTimeout.isSome <;> simp [h, remoteCalls, isRemote]

theorem remoteCalls_finishSuccess (now : Int) (token : Option Token)
    (inf : Inflight) (s : Store) (m : Machine) (evAcc : List Event) :
    remoteCalls (finishSuccess now token inf s m evAcc).2 = remoteCalls evAcc := by
  unfold finishSuccess
  by_cases hc : (token ≠ inf.prev ∨ ¬ inf.silent) <;>
    cases h : parseToken now token <;>
      simp [hc, h, setState, remoteCalls_append, remoteCalls_notified,
        remoteCalls_nil, remoteCalls_scheduleRefresh] <;>
      split <;>
      simp [remoteCalls_notified, remoteCalls_nil]

theorem runM_append (m : Machine) (l1 l2 : List RunStep) :
    runM m (l1 ++ l2) =
      ((runM (runM m l1).1 l2).1, (runM m l1).2 ++ (runM (runM m l1).1 l2).2) := by
  induction l1 generalizing m with
  | nil => simp [runM]
  | cons st rest ih =>
    simp only [List.cons_append, runM, List.append_eq]
    rw [ih]
    simp [List.append_assoc]

theorem callRefresh_attach (c : Nat) (sil : Bool) (m : Machine) (inf : Inflight)
    (h : m.inflight = some inf) :
    callRefreshStep c sil m =
      ({ m with inflight := some { inf with waiters := c :: inf.waiters } }, []) := by
  unfold callRefreshStep
  rw [h]

theorem runM_attach_calls (cs : List Nat) (sil : Bool) (m : Machine) (inf : Inflight)
    (h : m.inflight = some inf) :
    runM m (cs.map fun c => RunStep.callRefresh c sil) =
      ({ m with inflight := some { inf with waiters := cs.reverse ++ inf.waiters } }, []) := by
  induction cs generalizing m inf with
  | nil =>
    simp only [List.map_nil, runM, List.reverse_nil, List.nil_append]
    rw [← h]
  | cons c rest ih =>
    simp only [List.map_cons, runM, stepM, callRefresh_attach c sil m inf h]
    rw [ih _ { inf with waiters := c :: inf.waiters } rfl]
    simp [List.append_assoc]

theorem callRefresh_start_loud (c : Nat) (m : Machine) (h : m.inflight = none) :
    callRefreshStep c false m =
      ({ store := { m.store with
            state := { token := m.store.state.token, loading := true, error := none }
            refreshPromiseSet := true }
         inflight := some { phase := Phase.awaitRefresh, silent := false,
                            prev := m.store.state.token, waiters := [c] }
         results := m.results },
       [Event.notified { token := m.store.state.token, loading := true, error := none },
        Event.remoteRefresh]) := by
  unfold callRefreshStep
  rw [h]
  simp [setState, applyUpdate]

theorem callRefresh_start_silent_get (c : Nat) (m : Machine) (h : m.inflight = none)
    (hp : tokenTruthy m.store.state.token = false) :
    callRefreshStep c true m =
      ({ store := { m.store with
            state := { token := m.store.state.token, loading := m.store.state.loading,
                       error := none }
            refreshPromiseSet := true }
         inflight := some { phase := Phase.awaitGet, silent := true,
                            prev := m.store.state.token, waiters := [c] }
         results := m.results },
       [Event.notified { token := m.store.state.token, loading := m.store.state.loading,
                         error := none },
        Event.remoteGet]) := by
  unfold callRefreshStep
  rw [h]
  simp [setState, applyUpdate, hp]

theorem callRefresh_start_silent_refresh (c : Nat) (m : Machine) (h : m.inflight = none)
    (hp : tokenTruthy m.store.state.token = true) :
    callRefreshStep c true m =
      ({ store := { m.store with
            state := { token := m.store.state.token, loading := m.store.state.loading,
                       error := none }
            refreshPromiseSet := true }
         inflight := some { phase := Phase.awaitRefresh, silent := true,
                            prev := m.store.state.token, waiters := [c] }
         results := m.results },
       [Event.notified { token := m.store.state.token, loading := m.store.state.loading,
                         error := none },
        Event.remoteRefresh]) := by
  unfold callRefreshStep
  rw [h]
  simp [setState, applyUpdate, hp]

theorem finishSuccess_results (now : Int) (tok : Option Token) (inf : Inflight)
    (s : Store) (m : Machine) (evAcc : List Event) :
    (finishSuccess now tok inf s m evAcc).1.results =
      m.results ++ inf.waiters.map fun c => (c, Except.ok tok) := by
  unfold finishSuccess
  by_cases hc : (tok ≠ inf.prev ∨ ¬ inf.silent) <;>
    cases h : parseToken now tok <;>
      simp [hc, h, setState, scheduleRefresh] <;> split <;> simp

theorem finishSuccess_inflight (now : Int) (tok : Option Token) (inf : Inflight)
    (s : Store) (m : Machine) (evAcc : List Event) :
    (finishSuccess now tok inf s m evAcc).1.inflight = none := by
  unfold finishSuccess
  by_cases hc : (tok ≠ inf.prev ∨ ¬ inf.silent) <;>
    cases h : parseToken now tok <;>
      simp [hc, h, setState, scheduleRefresh] <;> split <;> simp

theorem finishSuccess_promise_cleared (now : Int) (tok : Option Token) (inf : Inflight)
    (s : Store) (m : Machine) (evAcc : List Event) :
    (finishSuccess now tok inf s m evAcc).1.store.refreshPromiseSet = false := by
  unfold finishSuccess
  by_cases hc : (tok ≠ inf.prev ∨ ¬ inf.silent) <;>
    cases h : parseToken now tok <;>
      simp [hc, h, setState, scheduleRefresh] <;> split <;> simp

theorem finishSuccess_token_committed (now : Int) (tok : Option Token) (inf : Inflight)
    (s : Store) (m : Machine) (evAcc : List Event)
    (hc : tok ≠ inf.prev ∨ ¬ inf.silent) :
    (finishSuccess now tok inf s m evAcc).1.store.state.token = tok := by
  unfold finishSuccess
  rw [if_pos hc]
  cases h : parseToken now tok <;>
    simp [h, setState, applyUpdate, scheduleRefresh] <;> split <;> simp

theorem resolveErr_spec (now : Int) (e : Err) (m : Machine) (inf : Inflight)
    (h : m.inflight = some inf) :
    (resolveErrStep now e m).1.store.state.token = m.store.state.token ∧
    (resolveErrStep now e m).1.store.state.error = some e ∧
    (resolveErrStep now e m).1.store.state.loading = false ∧
    (resolveErrStep now e m).1.store.refreshTimeout = some (RETRY_DELAY_SECONDS * 1000) ∧
    (resolveErrStep now e m).1.store.refreshPromiseSet = false ∧
    (resolveErrStep now e m).1.inflight = none ∧
    (resolveErrStep now e m).1.results =
      m.results ++ inf.waiters.map fun c => (c, Except.error e) := by
  unfold resolveErrStep
  rw [h]
  cases htv : m.store.refreshTimeout <;>
    simp [setState, applyUpdate, scheduleRefresh, htv]

theorem resolveOk_awaitRefresh (now : Int) (tok : Option Token) (m : Machine)
    (sil : Bool) (prev : Option Token) (ws : List Nat)
    (h : m.inflight = some ⟨Phase.awaitRefresh, sil, prev, ws⟩) :
    resolveOkStep now tok m =
      finishSuccess now tok ⟨Phase.awaitRefresh, sil, prev, ws⟩ m.store m [] := by
  unfold resolveOkStep
  rw [h]

theorem runM_single (m : Machine) (st : RunStep) : runM m [st] = stepM m st := by
  simp [runM]

/-- Claim C1 (refresh coalescing): starting from a store with no refresh
in flight, when `N ≥ 2` callers invoke `refreshToken()` before the first
remote call resolves, the whole run makes exactly one remote call; while
the calls are pending the single nullable refresh-promise field is set,
it is cleared only once the operation settles, and every one of the `N`
callers resolves to the same token value returned by the single remote
refresh. -/
theorem C1_refresh_coalescing (m : Machine) (cs : List Nat) (now : Int)
    (tok : Option Token) (hinf : m.inflight = none) (h2 : 2 ≤ cs.length) :
    remoteCalls (runM m ((cs.map fun c => RunStep.callRefresh c false) ++
      [RunStep.resolveOk now tok])).2 = 1 ∧
    (runM m (cs.map fun c => RunStep.callRefresh c false)).1.store.refreshPromiseSet = true ∧
    (runM m ((cs.map fun c => RunStep.callRefresh c false) ++
      [RunStep.resolveOk now tok])).1.store.refreshPromiseSet = false ∧
    (runM m ((cs.map fun c => RunStep.callRefresh c false) ++
      [RunStep.resolveOk now tok])).1.inflight = none ∧
    ∀ c ∈ cs, (c, Except.ok tok) ∈
      (runM m ((cs.map fun c => RunStep.callRefresh c false) ++
        [RunStep.resolveOk now tok])).1.results := by
  obtain ⟨c0, rest, rfl⟩ : ∃ c0 rest, cs = c0 :: rest := by
    cases cs with
    | nil => simp at h2
    | cons a l => exact ⟨a, l, rfl⟩
  have hmid : runM m ((c0 :: rest).map fun c => RunStep.callRefresh c false) =
      ({ store := { m.store with
            state := { token := m.store.state.token, loading := true, error := none }
            refreshPromiseSet := true }
         inflight := some { phase := Phase.awaitRefresh, silent := false,
                            prev := m.store.state.token,
                            waiters := rest.reverse ++ [c0] }
         results := m.results },
       [Event.notified { token := m.store.state.token, loading := true, error := none },
        Event.remoteRefresh]) := by
    simp only [List.map_cons, runM, stepM]
    rw [callRefresh_start_loud c0 m hinf]
    rw [runM_attach_calls rest false _ _ rfl]
    simp
  rw [runM_append, hmid, runM_single]
  simp only [stepM]
  rw [resolveOk_awaitRefresh now tok _ _ _ _ rfl]
  refine ⟨?_, trivial, ?_, ?_, ?_⟩
  · rw [remoteCalls_append, remoteCalls_finishSuccess]
    rfl
  · exact finishSuccess_promise_cleared ..
  · exact finishSuccess_inflight ..
  · intro c hc
    rw [finishSuccess_results]
    refine List.mem_append_right _ (List.mem_map.mpr ⟨c, ?_, rfl⟩)
    simp only [List.mem_append, List.mem_reverse, List.mem_singleton]
    rcases List.mem_cons.mp hc with h | h
    · exact Or.inr h
    · exact Or.inl h

theorem callRefresh_start_project (c : Nat) (sil : Bool) (m : Machine)
    (h : m.inflight = none) :
    (callRefreshStep c sil m).1.store.state.token = m.store.state.token ∧
    (callRefreshStep c sil m).1.results = m.results ∧
    ∃ inf, (callRefreshStep c sil m).1.inflight = some inf ∧ inf.waiters = [c] ∧
      inf.prev = m.store.state.token ∧ inf.silent = sil := by
  unfold callRefreshStep
  rw [h]
  cases sil with
  | false => simp [setState, applyUpdate]
  | true =>
    by_cases ht : tokenTruthy m.store.state.token <;>
      simp [ht, setState, applyUpdate]

/-- Claim C2 (non-regression on refresh failure): for every store holding
token `T` with no refresh in flight, if a refresh attempt (silent or not)
is started and its remote call fails, afterwards the snapshot's token
still equals `T`, the snapshot's error is non-null (it records the
failure), and the rejection is propagated to the caller that awaited the
failing refresh — the error is written to state in the same resolution
step, before the promise rejection reaches the caller. -/
theorem C2_refresh_failure_preserves_token (m : Machine) (T : Token) (c : Nat)
    (sil : Bool) (now : Int) (e : Err)
    (hinf : m.inflight = none) (htok : m.store.state.token = some T) :
    (runM m [RunStep.callRefresh c sil, RunStep.resolveErr now e]).1.store.state.token = some T ∧
    (runM m [RunStep.callRefresh c sil, RunStep.resolveErr now e]).1.store.state.error = some e ∧
    (c, (Except.error e : Except Err (Option Token))) ∈
      (runM m [RunStep.callRefresh c sil, RunStep.resolveErr now e]).1.results := by
  obtain ⟨htok1, hres1, inf, hinf1, hw, -, -⟩ := callRefresh_start_project c sil m hinf
  obtain ⟨he1, he2, he3, -, -, -, he7⟩ :=
    resolveErr_spec now e (callRefreshStep c sil m).1 inf hinf1
  simp only [runM, stepM, List.append_nil]
  refine ⟨?_, ?_, ?_⟩
  · rw [he1, htok1, htok]
  · rw [he2]
  · rw [he7, hres1, hw]
    simp

/-- Witness for C1 at two concurrent callers. -/
theorem C1_refresh_coalescing_witness :
    remoteCalls (runM baseMachine (([1, 2].map fun c => RunStep.callRefresh c false) ++
      [RunStep.resolveOk 0 (some tokA)])).2 = 1 ∧
    (runM baseMachine ([1, 2].map fun c => RunStep.callRefresh c false)).1.store.refreshPromiseSet = true ∧
    (runM baseMachine (([1, 2].map fun c => RunStep.callRefresh c false) ++
      [RunStep.resolveOk 0 (some tokA)])).1.store.refreshPromiseSet = false ∧
    (runM baseMachine (([1, 2].map fun c => RunStep.callRefresh c false) ++
      [RunStep.resolveOk 0 (some tokA)])).1.inflight = none ∧
    ∀ c ∈ [1, 2], (c, Except.ok (some tokA)) ∈
      (runM baseMachine (([1, 2].map fun c => RunStep.callRefresh c false) ++
        [RunStep.resolveOk 0 (some tokA)])).1.results :=
  C1_refresh_coalescing baseMachine [1, 2] 0 (some tokA) rfl (by decide)

/-- Witness for C2 at a concrete cached token and failing refresh. -/
theorem C2_refresh_failure_preserves_token_witness :
    (runM (machineWith tokA) [RunStep.callRefresh 1 false, RunStep.resolveErr 0 "network error"]).1.store.state.token = some tokA ∧
    (runM (machineWith tokA) [RunStep.callRefresh 1 false, RunStep.resolveErr 0 "network error"]).1.store.state.error = some "network error" ∧
    (1, (Except.error "network error" : Except Err (Option Token))) ∈
      (runM (machineWith tokA) [RunStep.callRefresh 1 false, RunStep.resolveErr 0 "network error"]).1.results :=
  C2_refresh_failure_preserves_token (machineWith tokA) tokA 1 false 0 "network error" rfl rfl

/-- Claim C3 (getAccessToken decision tree): for every store state whose
bootstrap cookie is already consumed (so the fast-cookie path yields
nothing), `getAccessToken()` (1) returns the cached token unchanged, with
no remote call and no state mutation, when it parses and is not expiring;
(2) returns it as-is, equally without a remote call, when it is truthy
but `parseToken` returns `null`; and (3) otherwise delegates to the
shared refresh path, whose result it returns. -/
theorem C3_getAccessToken_decision_tree (now : Int) (s : Store) (b : Browser)
    (hcons : s.fastCookieConsumed = true) :
    (∀ td, parseToken now s.state.token = some td → td.isExpiring = false →
      getAccessTokenStep now s b = (GetOutcome.ret s.state.token, s, b, [])) ∧
    (tokenTruthy s.state.token = true → parseToken now s.state.token = none →
      getAccessTokenStep now s b = (GetOutcome.ret s.state.token, s, b, [])) ∧
    (dataExpiring (parseToken now s.state.token) = true ∨
        (tokenTruthy s.state.token = false ∧ parseToken now s.state.token = none) →
      getAccessTokenStep now s b = (GetOutcome.refresh, s, b, [])) := by
  have hfast : consumeFastCookie s b = (none, s, b, []) := by
    unfold consumeFastCookie
    rw [hcons]
    simp
  have hnone : tokenTruthy none = false := rfl
  refine ⟨?_, ?_, ?_⟩
  · intro td hp hne
    unfold getAccessTokenStep
    rw [hfast]
    simp [hnone, hp, hne]
  · intro ht hp
    unfold getAccessTokenStep
    rw [hfast]
    simp [hnone, hp, ht]
  · intro hor
    unfold getAccessTokenStep
    rw [hfast]
    rcases hor with hexp | ⟨hf, hp⟩
    · cases hp : parseToken now s.state.token with
      | none => rw [hp] at hexp; simp [dataExpiring] at hexp
      | some td =>
        rw [hp] at hexp
        simp only [dataExpiring] at hexp
        simp [hnone, hp, hexp]
    · simp [hnone, hp, hf]

/-- Witness for C3: an opaque (non-JWT) cached token is returned as-is
without any remote call. -/
theorem C3_getAccessToken_decision_tree_witness :
    getAccessTokenStep 0 (storeWith rawTok) baseBrowser =
      (GetOutcome.ret ((storeWith rawTok).state.token), storeWith rawTok, baseBrowser, []) :=
  (C3_getAccessToken_decision_tree 0 (storeWith rawTok) baseBrowser rfl).2.1 (by decide) (by decide)

/-- Counterexample to claim C4 as stated: for a JWT with `iat = 0` (a
present numeric claim) and `exp = now + 45` at `now = 1000000`, the
claim's formula takes `lifetime = exp - iat = 1000045 > 300`, hence
buffer 60 and `isExpiring = true`, but the code's `payload.iat || now`
treats the falsy `0` as absent, computes lifetime 45 ≤ 300, buffer 30,
and returns `isExpiring = false`. -/
theorem C4_counterexample :
    claimC4IsExpiring 1000000 1000045 (some 0) = true ∧
    (parseToken 1000000 (some (Token.jwt "t" ⟨some 1000045, some 0⟩))).map
      TokenData.isExpiring = some false := by
  decide

/-- Claim C4 as amended: for every JWT whose payload has numeric `exp`,
`parseToken` computes `lifetime = exp - (iat if present and non-zero,
else now)` — the JavaScript `||` falls back to `now` when `iat` is `0` —
then `buffer = 30 if lifetime <= 300 else 60` and `isExpiring = exp <
now + buffer`; in particular for `exp = now + 45` and `iat = now - 15`
`isExpiring` is false, and for `exp = now + 20` with the same `iat` it
is true. -/
theorem C4_adaptive_buffer (now exp : Int) (iat : Option Int) (raw : String)
    (hraw : raw ≠ "") :
    ((parseToken now (some (Token.jwt raw ⟨some exp, iat⟩))).map TokenData.isExpiring =
      some (decide (exp < now +
        (if exp - (match iat with
                   | some i => if i = 0 then now else i
                   | none => now) ≤ 300 then (30 : Int) else 60)))) ∧
    ((parseToken now (some (Token.jwt raw ⟨some (now + 45), some (now - 15)⟩))).map
      TokenData.isExpiring = some false) ∧
    ((parseToken now (some (Token.jwt raw ⟨some (now + 20), some (now - 15)⟩))).map
      TokenData.isExpiring = some true) := by
  have htr : Token.truthy (Token.jwt raw ⟨some exp, iat⟩) = true := by
    simp [Token.truthy, Token.rawStr, hraw]
  refine ⟨?_, ?_, ?_⟩
  · unfold parseToken
    simp [Token.truthy, Token.rawStr, hraw, decodeJwt?, TOKEN_EXPIRY_BUFFER_SECONDS]
  · unfold parseToken
    by_cases h15 : now - 15 = 0 <;>
      simp [Token.truthy, Token.rawStr, hraw, decodeJwt?, TOKEN_EXPIRY_BUFFER_SECONDS, h15] <;>
      omega
  · unfold parseToken
    by_cases h15 : now - 15 = 0 <;>
      simp [Token.truthy, Token.rawStr, hraw, decodeJwt?, TOKEN_EXPIRY_BUFFER_SECONDS, h15] <;>
      omega

/-- Witness for the amended C4 at a concrete time and token. -/
theorem C4_adaptive_buffer_witness :
    ((parseToken 1000000 (some (Token.jwt "t" ⟨some 1000500, some 999000⟩))).map
      TokenData.isExpiring =
      some (decide ((1000500 : Int) < 1000000 +
        (if (1000500 : Int) - (match (some (999000 : Int)) with
                   | some i => if i = 0 then 1000000 else i
                   | none => (1000000 : Int)) ≤ 300 then (30 : Int) else 60)))) ∧
    ((parseToken 1000000 (some (Token.jwt "t" ⟨some (1000000 + 45), some (1000000 - 15)⟩))).map
      TokenData.isExpiring = some false) ∧
    ((parseToken 1000000 (some (Token.jwt "t" ⟨some (1000000 + 20), some (1000000 - 15)⟩))).map
      TokenData.isExpiring = some true) :=
  C4_adaptive_buffer 1000000 1000500 (some 999000) "t" (by decide)

/-- Claim C5 (refresh scheduling delay): for every scheduling call, when
`timeUntilExpiry` is unknown (unparseable token) the installed delay is
the fixed 5-minute retry (300000 ms); when `timeUntilExpiry ≤
bufferSeconds` the delay is 0; otherwise it is `(timeUntilExpiry -
bufferSeconds) * 1000` clamped into `[15000, 86400000]` ms.  Here
`bufferSeconds` is the fixed default expiry buffer
`TOKEN_EXPIRY_BUFFER_SECONDS = 60`; the scheduling path never uses the
adaptive 30-second buffer. -/
theorem C5_schedule_delay (s : Store) :
    ((scheduleRefresh s none).1.refreshTimeout = some (300000 : Int)) ∧
    (∀ v : Int, v ≤ TOKEN_EXPIRY_BUFFER_SECONDS →
      (scheduleRefresh s (some v)).1.refreshTimeout = some 0) ∧
    (∀ v : Int, TOKEN_EXPIRY_BUFFER_SECONDS < v →
      (scheduleRefresh s (some v)).1.refreshTimeout =
        some (min (max ((v - TOKEN_EXPIRY_BUFFER_SECONDS) * 1000) 15000) 86400000) ∧
      (15000 : Int) ≤ min (max ((v - TOKEN_EXPIRY_BUFFER_SECONDS) * 1000) 15000) 86400000 ∧
      min (max ((v - TOKEN_EXPIRY_BUFFER_SECONDS) * 1000) 15000) 86400000 ≤ 86400000) := by
  refine ⟨?_, ?_, ?_⟩
  · unfold scheduleRefresh
    by_cases h : s.refreshTimeout.isSome <;> simp [h, RETRY_DELAY_SECONDS]
  · intro v hv
    unfold scheduleRefresh getRefreshDelay
    by_cases h : s.refreshTimeout.isSome <;> simp [h, hv]
  · intro v hv
    have hnle : ¬ v ≤ TOKEN_EXPIRY_BUFFER_SECONDS := not_le.mpr hv
    refine ⟨?_, ?_, ?_⟩
    · unfold scheduleRefresh getRefreshDelay
      by_cases h : s.refreshTimeout.isSome <;>
        simp [h, hnle, MIN_REFRESH_DELAY_SECONDS, MAX_REFRESH_DELAY_SECONDS]
    · exact le_min (le_max_right _ _) (by norm_num)
    · exact min_le_right _ _

/-- Witness for C5 at a concrete `timeUntilExpiry` of 3600 seconds. -/
theorem C5_schedule_delay_witness :
    (scheduleRefresh baseStore (some 3600)).1.refreshTimeout =
      some (min (max (((3600 : Int) - TOKEN_EXPIRY_BUFFER_SECONDS) * 1000) 15000) 86400000) ∧
    (15000 : Int) ≤ min (max (((3600 : Int) - TOKEN_EXPIRY_BUFFER_SECONDS) * 1000) 15000) 86400000 ∧
    min (max (((3600 : Int) - TOKEN_EXPIRY_BUFFER_SECONDS) * 1000) 15000) 86400000 ≤ 86400000 :=
  (C5_schedule_delay baseStore).2.2 3600 (by decide)

/-- Claim C6 (bootstrap fast-cookie path): when the designated transient
cookie is present (and truthy) at adoption time, (1) at construction the
cookie's value becomes the cached token, the cookie is deleted
immediately — the jar no longer holds it and the deletion header
tombstones it with `Max-Age=0` — and the bootstrap flag is set; (2) on a
first token read with the bootstrap unconsumed, `getAccessToken` adopts
the cookie's value as the cached token, deletes the cookie and sets the
flag; and (3) once the flag is set, `consumeFastCookie` is a no-op, so
the bootstrap fires at most once per store lifetime. -/
theorem C6_bootstrap_fast_cookie (now : Int) (t : Token) (b : Browser) (s : Store) :
    (b.cookie = some t → t.truthy = true →
      (mkStore now b).1.state.token = some t ∧
      (mkStore now b).2.1.cookie = none ∧
      (mkStore now b).1.fastCookieConsumed = true ∧
      Event.cookieDeleted (deletionString b.secure) ∈ (mkStore now b).2.2 ∧
      ∃ pre post, deletionString b.secure = pre ++ "Max-Age=0" ++ post) ∧
    (s.fastCookieConsumed = false → b.cookie = some t → t.truthy = true →
      some t ≠ s.state.token →
      (getAccessTokenStep now s b).1 = GetOutcome.ret (some t) ∧
      (getAccessTokenStep now s b).2.1.state.token = some t ∧
      (getAccessTokenStep now s b).2.2.1.cookie = none ∧
      (getAccessTokenStep now s b).2.1.fastCookieConsumed = true ∧
      Event.cookieDeleted (deletionString b.secure) ∈ (getAccessTokenStep now s b).2.2.2) ∧
    (s.fastCookieConsumed = true → consumeFastCookie s b = (none, s, b, [])) := by
  refine ⟨?_, ?_, ?_⟩
  · intro hb ht
    have hdel : ∃ pre post, deletionString b.secure = pre ++ "Max-Age=0" ++ post := by
      cases hsec : b.secure with
      | false => exact ⟨"workos-access-token=; SameSite=Lax; ", "", by simp [deletionString, jwtCookieName]⟩
      | true => exact ⟨"workos-access-token=; SameSite=Lax; ", "; Secure", by simp [deletionString, jwtCookieName]⟩
    unfold mkStore getInitialTokenFromCookie
    rw [hb]
    simp only [ht, Bool.not_true, deleteCookie]
    cases hp : parseToken now (some t) <;>
      simp [hp, tokenTruthy, ht, scheduleRefresh, hdel]
  · intro hcons hb ht hne
    have hfast : consumeFastCookie s b =
        (some t, { s with fastCookieConsumed := true }, { b with cookie := none },
          [Event.cookieDeleted (deletionString b.secure)]) := by
      unfold consumeFastCookie
      rw [hcons, hb]
      simp [ht, deleteCookie, hne]
    unfold getAccessTokenStep
    rw [hfast]
    simp [tokenTruthy, ht, setState, applyUpdate]
  · intro hcons
    unfold consumeFastCookie
    rw [hcons]
    simp

/-- Witness for C6: constructing the store with the fast cookie holding a
token adopts and tombstones it; a consumed store ignores the jar. -/
theorem C6_bootstrap_fast_cookie_witness :
    ((mkStore 0 { cookie := some rawTok, secure := false }).1.state.token = some rawTok ∧
      (mkStore 0 { cookie := some rawTok, secure := false }).2.1.cookie = none ∧
      (mkStore 0 { cookie := some rawTok, secure := false }).1.fastCookieConsumed = true ∧
      Event.cookieDeleted (deletionString false) ∈
        (mkStore 0 { cookie := some rawTok, secure := false }).2.2 ∧
      ∃ pre post, deletionString false = pre ++ "Max-Age=0" ++ post) ∧
    consumeFastCookie baseStore { cookie := some rawTok, secure := false } =
      (none, baseStore, { cookie := some rawTok, secure := false }, []) :=
  ⟨(C6_bootstrap_fast_cookie 0 rawTok { cookie := some rawTok, secure := false } baseStore).1
      rfl (by decide),
   (C6_bootstrap_fast_cookie 0 rawTok { cookie := some rawTok, secure := false } baseStore).2.2
      rfl⟩

theorem clearToken_spec (s : Store) :
    (clearToken s).1.state.token = none ∧
    (clearToken s).1.state.error = none ∧
    (clearToken s).1.state.loading = false ∧
    (clearToken s).1.refreshTimeout = none ∧
    (clearToken s).1.refreshPromiseSet = s.refreshPromiseSet ∧
    (clearToken s).1.listeners = s.listeners ∧
    (clearToken s).1.fastCookieConsumed = s.fastCookieConsumed := by
  unfold clearToken
  cases htv : s.refreshTimeout <;> simp [htv, setState, applyUpdate]

/-- Claim C7 (identity-change invalidation in the reactive binding):
whenever the identity signal changes while a user is present — the
previous session id was defined and differs from the current one, or the
previous user id was defined and differs — the `useAccessToken` effect
clears the store's cached token; and when the user becomes absent (a
previous user id was defined), it clears the token, sets loading false
(both the hook's initial-loading flag and the store's loading flag) and
does not attempt a background refresh. -/
theorem C7_identity_change_invalidation (uid : String) (sid : Option String)
    (now : Int) (refs : HookRefs) (store : Store) :
    (((refs.prevSession ≠ none ∧ refs.prevSession ≠ sid) ∨
      (refs.prevUserId ≠ none ∧ refs.prevUserId ≠ some uid)) →
      (identityEffect (some uid) sid now refs store).2.1.state.token = none) ∧
    (refs.prevUserId ≠ none →
      (identityEffect none sid now refs store).2.1.state.token = none ∧
      (identityEffect none sid now refs store).2.1.state.loading = false ∧
      HookAction.setInitialLoading false ∈ (identityEffect none sid now refs store).2.2.1 ∧
      HookAction.silentRefresh ∉ (identityEffect none sid now refs store).2.2.1) := by
  constructor
  · intro hch
    unfold identityEffect
    dsimp only
    rw [if_pos hch]
    exact (clearToken_spec store).1
  · intro hprev
    unfold identityEffect
    simp only [hprev, ne_eq, not_false_iff, if_true]
    refine ⟨?_, ?_, ?_, ?_⟩
    · simp [hprev, (clearToken_spec store).1]
    · simp [hprev, (clearToken_spec store).2.2.1]
    · simp
    · simp

/-- Witness for C7: a session-id change from `s1` to `s2` clears the
token; a logout clears it without a background refresh. -/
theorem C7_identity_change_invalidation_witness :
    (identityEffect (some "u1") (some "s2") 0 ⟨some "s1", some "u1"⟩ (storeWith tokA)).2.1.state.token = none ∧
    ((identityEffect none none 0 ⟨some "s1", some "u1"⟩ (storeWith tokA)).2.1.state.token = none ∧
      (identityEffect none none 0 ⟨some "s1", some "u1"⟩ (storeWith tokA)).2.1.state.loading = false ∧
      HookAction.setInitialLoading false ∈
        (identityEffect none none 0 ⟨some "s1", some "u1"⟩ (storeWith tokA)).2.2.1 ∧
      HookAction.silentRefresh ∉
        (identityEffect none none 0 ⟨some "s1", some "u1"⟩ (storeWith tokA)).2.2.1) :=
  ⟨(C7_identity_change_invalidation "u1" (some "s2") 0 ⟨some "s1", some "u1"⟩ (storeWith tokA)).1
      (Or.inl ⟨by decide, by decide⟩),
   (C7_identity_change_invalidation "u1" none 0 ⟨some "s1", some "u1"⟩ (storeWith tokA)).2
      (by decide)⟩

/-- Counterexample to claim C8 as stated: a silent refresh whose captured
previous token is the opaque `rawTok` resolves with the identical token;
the resolution step emits no events at all — in particular it does not
reschedule the renewal timer (the claim asserts it still does), because
the identical token does not parse and the reschedule at lines 345-348
only runs when `parseToken` succeeds. -/
theorem C8_counterexample :
    (resolveOkStep 0 (some rawTok) silentInflightMachine).2 = [] ∧
    (resolveOkStep 0 (some rawTok) silentInflightMachine).1.store.refreshTimeout = none := by
  decide

/-- Claim C8 as amended (silent-refresh notification suppression): on a
successful refresh resolution, the store replaces its observable snapshot
and notifies subscribers only when the resolved token differs from the
captured previous token or the refresh was non-silent; a silent refresh
resolving with the identical token leaves the snapshot unchanged and
emits no notification, and it reschedules the renewal timer exactly when
the resolved token parses (an unparseable token triggers no reschedule at
all). -/
theorem C8_silent_refresh_notification_suppression (m : Machine) (sil : Bool)
    (prev tok : Option Token) (ws : List Nat) (now : Int)
    (h : m.inflight = some ⟨Phase.awaitRefresh, sil, prev, ws⟩) :
    (sil = true → tok = prev →
      (resolveOkStep now tok m).1.store.state = m.store.state ∧
      notifyCount (resolveOkStep now tok m).2 = 0 ∧
      (∀ td, parseToken now tok = some td →
        Event.timerSet (getRefreshDelay td.timeUntilExpiry) ∈ (resolveOkStep now tok m).2) ∧
      (parseToken now tok = none → (resolveOkStep now tok m).2 = [])) ∧
    ((sil = false ∨ tok ≠ prev) →
      (resolveOkStep now tok m).1.store.state.token = tok ∧
      1 ≤ notifyCount (resolveOkStep now tok m).2) := by
  rw [resolveOk_awaitRefresh now tok m sil prev ws h]
  constructor
  · intro hsil htok
    have hc : ¬ (tok ≠ (⟨Phase.awaitRefresh, sil, prev, ws⟩ : Inflight).prev ∨
        ¬ (⟨Phase.awaitRefresh, sil, prev, ws⟩ : Inflight).silent) := by
      simp [htok, hsil]
    unfold finishSuccess
    rw [if_neg hc]
    cases hp : parseToken now tok with
    | none => simp [hp, notifyCount]
    | some td =>
      cases htv : m.store.refreshTimeout <;>
        simp [hp, htv, scheduleRefresh, notifyCount, isNotify]
  · intro hor
    have hc : (tok ≠ (⟨Phase.awaitRefresh, sil, prev, ws⟩ : Inflight).prev ∨
        ¬ (⟨Phase.awaitRefresh, sil, prev, ws⟩ : Inflight).silent) := by
      rcases hor with hs | hne
      · exact Or.inr (by simp [hs])
      · exact Or.inl hne
    constructor
    · exact finishSuccess_token_committed now tok _ m.store m [] hc
    · unfold finishSuccess
      rw [if_pos hc]
      cases hp : parseToken now tok with
      | none => simp [hp, setState, notifyCount, isNotify]
      | some td =>
        cases htv : m.store.refreshTimeout <;>
          simp [hp, htv, setState, scheduleRefresh, notifyCount, isNotify]

/-- Witness for the amended C8: the suppressed branch at the concrete
silent in-flight machine, and the committing branch at a changed token. -/
theorem C8_silent_refresh_notification_suppression_witness :
    ((resolveOkStep 0 (some rawTok) silentInflightMachine).1.store.state =
        silentInflightMachine.store.state ∧
      notifyCount (resolveOkStep 0 (some rawTok) silentInflightMachine).2 = 0 ∧
      (∀ td, parseToken 0 (some rawTok) = some td →
        Event.timerSet (getRefreshDelay td.timeUntilExpiry) ∈
          (resolveOkStep 0 (some rawTok) silentInflightMachine).2) ∧
      (parseToken 0 (some rawTok) = none →
        (resolveOkStep 0 (some rawTok) silentInflightMachine).2 = [])) ∧
    ((resolveOkStep 0 (some tokA) silentInflightMachine).1.store.state.token = some tokA ∧
      1 ≤ notifyCount (resolveOkStep 0 (some tokA) silentInflightMachine).2) :=
  ⟨(C8_silent_refresh_notification_suppression silentInflightMachine true
      (some rawTok) (some rawTok) [1] 0 rfl).1 rfl rfl,
   (C8_silent_refresh_notification_suppression silentInflightMachine true
      (some rawTok) (some tokA) [1] 0 rfl).2 (Or.inr (by decide))⟩

/-- Counterexample to claim C9 as stated: with token `tokA` cached, a
silent refresh starts (capturing `previousToken = tokA`), `clearToken()`
runs while it is in flight, and the refresh then resolves with the
identical token `tokA`.  The refresh completes and resolves its caller
with `tokA`, but the commit at lines 337-343 is skipped (`token ===
previousToken` and the call is silent), so the snapshot token stays
`undefined` — the resolved token is not committed, contradicting the
claim's consequence. -/
theorem C9_counterexample :
    (runM (machineWith tokA) [RunStep.callRefresh 1 true, RunStep.clearTok,
      RunStep.resolveOk 0 (some tokA)]).1.store.state.token = none ∧
    (runM (machineWith tokA) [RunStep.callRefresh 1 true, RunStep.clearTok,
      RunStep.resolveOk 0 (some tokA)]).1.results = [(1, Except.ok (some tokA))] := by
  decide

/-- Claim C9 as amended: `clearToken()` sets token to undefined, error to
null and loading to false, cancels the pending renewal timer, and leaves
the in-flight refresh promise, the subscriber set and the
bootstrap-consumed flag unchanged; a refresh already in flight when
`clearToken()` was called still completes (resolving all attached
callers) and commits its resolved token to the snapshot afterwards
provided it was non-silent or its resolved token differs from the
`previousToken` captured when the refresh started (a silent refresh
resolving with exactly the captured token skips the commit). -/
theorem C9_clearToken_frame (s : Store) (m : Machine) (sil : Bool)
    (prev tok : Option Token) (ws : List Nat) (now : Int)
    (h : m.inflight = some ⟨Phase.awaitRefresh, sil, prev, ws⟩) :
    ((clearToken s).1.state.token = none ∧
      (clearToken s).1.state.error = none ∧
      (clearToken s).1.state.loading = false ∧
      (clearToken s).1.refreshTimeout = none ∧
      (clearToken s).1.refreshPromiseSet = s.refreshPromiseSet ∧
      (clearToken s).1.listeners = s.listeners ∧
      (clearToken s).1.fastCookieConsumed = s.fastCookieConsumed) ∧
    ((runM m [RunStep.clearTok, RunStep.resolveOk now tok]).1.inflight = none ∧
      (∀ c ∈ ws, (c, Except.ok tok) ∈
        (runM m [RunStep.clearTok, RunStep.resolveOk now tok]).1.results)) ∧
    ((sil = false ∨ tok ≠ prev) →
      (runM m [RunStep.clearTok, RunStep.resolveOk now tok]).1.store.state.token = tok) := by
  have hrun : (runM m [RunStep.clearTok, RunStep.resolveOk now tok]).1 =
      (resolveOkStep now tok { m with store := (clearToken m.store).1 }).1 := by
    simp [runM, stepM]
  have hres : resolveOkStep now tok { m with store := (clearToken m.store).1 } =
      finishSuccess now tok ⟨Phase.awaitRefresh, sil, prev, ws⟩
        (clearToken m.store).1 { m with store := (clearToken m.store).1 } [] :=
    resolveOk_awaitRefresh now tok _ sil prev ws h
  refine ⟨clearToken_spec s, ⟨?_, ?_⟩, ?_⟩
  · rw [hrun, hres]
    exact finishSuccess_inflight ..
  · intro c hc
    rw [hrun, hres, finishSuccess_results]
    exact List.mem_append_right _ (List.mem_map.mpr ⟨c, hc, rfl⟩)
  · intro hor
    have hc : tok ≠ (⟨Phase.awaitRefresh, sil, prev, ws⟩ : Inflight).prev ∨
        ¬ (⟨Phase.awaitRefresh, sil, prev, ws⟩ : Inflight).silent := by
      rcases hor with hs | hne
      · exact Or.inr (by simp [hs])
      · exact Or.inl hne
    rw [hrun, hres]
    exact finishSuccess_token_committed now tok _ _ _ [] hc

/-- Witness for the amended C9: the frame conditions at a concrete store
and the commit of a changed token after `clearToken`. -/
theorem C9_clearToken_frame_witness :
    (((clearToken (storeWith tokA)).1.state.token = none ∧
      (clearToken (storeWith tokA)).1.state.error = none ∧
      (clearToken (storeWith tokA)).1.state.loading = false ∧
      (clearToken (storeWith tokA)).1.refreshTimeout = none ∧
      (clearToken (storeWith tokA)).1.refreshPromiseSet = (storeWith tokA).refreshPromiseSet ∧
      (clearToken (storeWith tokA)).1.listeners = (storeWith tokA).listeners ∧
      (clearToken (storeWith tokA)).1.fastCookieConsumed = (storeWith tokA).fastCookieConsumed) ∧
    ((runM silentInflightMachine [RunStep.clearTok, RunStep.resolveOk 0 (some tokA)]).1.inflight = none ∧
      (∀ c ∈ [1], (c, Except.ok (some tokA)) ∈
        (runM silentInflightMachine [RunStep.clearTok, RunStep.resolveOk 0 (some tokA)]).1.results)) ∧
    ((true = false ∨ (some tokA ≠ some rawTok)) →
      (runM silentInflightMachine [RunStep.clearTok, RunStep.resolveOk 0 (some tokA)]).1.store.state.token = some tokA)) ∧
    (runM silentInflightMachine [RunStep.clearTok, RunStep.resolveOk 0 (some tokA)]).1.store.state.token = some tokA :=
  ⟨C9_clearToken_frame (storeWith tokA) silentInflightMachine true (some rawTok)
      (some tokA) [1] 0 rfl,
   (C9_clearToken_frame (storeWith tokA) silentInflightMachine true (some rawTok)
      (some tokA) [1] 0 rfl).2.2 (Or.inr (by decide))⟩

theorem forcedCalls_append (a b : List Event) :
    forcedCalls (a ++ b) = forcedCalls a + forcedCalls b := by
  simp [forcedCalls, List.filter_append]

theorem forcedCalls_nil : forcedCalls [] = 0 := rfl

theorem forcedCalls_notified (st : TokenState) (rest : List Event) :
    forcedCalls (Event.notified st :: rest) = forcedCalls rest := by
  simp [forcedCalls]

theorem forcedCalls_scheduleRefresh (s : Store) (t : Option Int) :
    forcedCalls (scheduleRefresh s t).2 = 0 := by
  unfold scheduleRefresh
  by_cases h : s.refreshTimeout.isSome <;> simp [h, forcedCalls]

theorem forcedCalls_finishSuccess (now : Int) (token : Option Token) (inf : Inflight)
    (s : Store) (m : Machine) (evAcc : List Event) :
    forcedCalls (finishSuccess now token inf s m evAcc).2 = forcedCalls evAcc := by
  unfold finishSuccess
  by_cases hc : (token ≠ inf.prev ∨ ¬ inf.silent) <;>
    cases h : parseToken now token <;>
      simp [hc, h, setState, forcedCalls_append, forcedCalls_notified,
        forcedCalls_nil, forcedCalls_scheduleRefresh] <;>
      split <;>
      simp [forcedCalls_notified, forcedCalls_nil]

theorem resolveOk_none (now : Int) (tok : Option Token) (m : Machine)
    (h : m.inflight = none) : resolveOkStep now tok m = (m, []) := by
  unfold resolveOkStep
  rw [h]

theorem resolveOk_awaitSecond (now : Int) (tok : Option Token) (m : Machine)
    (sil : Bool) (prev tsf : Option Token) (ws : List Nat)
    (h : m.inflight = some ⟨Phase.awaitRefreshSecond tsf, sil, prev, ws⟩) :
    resolveOkStep now tok m =
      finishSuccess now (if tokenTruthy tok then tok else tsf)
        ⟨Phase.awaitRefreshSecond tsf, sil, prev, ws⟩ m.store m [] := by
  unfold resolveOkStep
  rw [h]

theorem resolveOk_awaitGet (now : Int) (t1 : Option Token) (m : Machine)
    (prev : Option Token) (ws : List Nat)
    (h : m.inflight = some ⟨Phase.awaitGet, true, prev, ws⟩) :
    resolveOkStep now t1 m =
      (if ¬ tokenTruthy t1 ∨ dataExpiring (parseToken now t1) then
        ({ store := (if tokenTruthy t1 ∧ t1 ≠ prev then
              setState m.store { token := some t1, loading := some false, error := some none }
            else (m.store, [])).1
           inflight := some ⟨Phase.awaitRefreshSecond t1, true, prev, ws⟩
           results := m.results },
         (if tokenTruthy t1 ∧ t1 ≠ prev then
              setState m.store { token := some t1, loading := some false, error := some none }
            else (m.store, [])).2 ++ [Event.remoteRefresh])
      else
        finishSuccess now t1 ⟨Phase.awaitGet, true, prev, ws⟩
          (if tokenTruthy t1 ∧ t1 ≠ prev then
              setState m.store { token := some t1, loading := some false, error := some none }
            else (m.store, [])).1 m
          (if tokenTruthy t1 ∧ t1 ≠ prev then
              setState m.store { token := some t1, loading := some false, error := some none }
            else (m.store, [])).2) := by
  unfold resolveOkStep
  rw [h]

theorem remoteCalls_cons_get (rest : List Event) :
    remoteCalls (Event.remoteGet :: rest) = remoteCalls rest + 1 := by
  simp [remoteCalls, isRemote, List.filter_cons]

theorem remoteCalls_cons_refresh (rest : List Event) :
    remoteCalls (Event.remoteRefresh :: rest) = remoteCalls rest + 1 := by
  simp [remoteCalls, isRemote, List.filter_cons]

theorem forcedCalls_cons_refresh (rest : List Event) :
    forcedCalls (Event.remoteRefresh :: rest) = forcedCalls rest + 1 := by
  simp [forcedCalls, List.filter_cons]

theorem forcedCalls_cons_get (rest : List Event) :
    forcedCalls (Event.remoteGet :: rest) = forcedCalls rest := by
  simp [forcedCalls, List.filter_cons]

/-- Claim C10 (silent two-phase refresh): a silent refresh that starts
with no (truthy) cached token first makes the cheap get call (one get,
no forced refresh yet); any truthy token the get returns is published to
state immediately; the forced refresh is then issued in the resolution
step exactly when the get returned no truthy token or one already judged
expiring; the whole silent refresh makes at most two remote calls; and a
silent refresh that starts with a truthy cached token issues the forced
refresh directly, with no get call. -/
theorem C10_silent_refresh_two_phase (m : Machine) (c : Nat) (now now2 : Int)
    (t1 t2 : Option Token) (hinf : m.inflight = none) :
    (tokenTruthy m.store.state.token = false →
      getCalls (runM m [RunStep.callRefresh c true]).2 = 1 ∧
      forcedCalls (runM m [RunStep.callRefresh c true]).2 = 0 ∧
      (tokenTruthy t1 = true →
        (runM m [RunStep.callRefresh c true, RunStep.resolveOk now t1]).1.store.state.token = t1) ∧
      (forcedCalls (runM m [RunStep.callRefresh c true, RunStep.resolveOk now t1]).2 =
        if tokenTruthy t1 = false ∨ dataExpiring (parseToken now t1) = true then 1 else 0) ∧
      remoteCalls (runM m [RunStep.callRefresh c true, RunStep.resolveOk now t1,
        RunStep.resolveOk now2 t2]).2 ≤ 2) ∧
    (tokenTruthy m.store.state.token = true →
      getCalls (runM m [RunStep.callRefresh c true]).2 = 0 ∧
      forcedCalls (runM m [RunStep.callRefresh c true]).2 = 1) := by
  constructor
  · intro htok
    have hstart := callRefresh_start_silent_get c m hinf htok
    have hcondiff : (¬ tokenTruthy t1 ∨ dataExpiring (parseToken now t1)) ↔
        (tokenTruthy t1 = false ∨ dataExpiring (parseToken now t1) = true) := by
      simp [Bool.not_eq_true]
    refine ⟨?_, ?_, ?_, ?_, ?_⟩
    · rw [runM_single]
      simp only [stepM]
      rw [hstart]
      rfl
    · rw [runM_single]
      simp only [stepM]
      rw [hstart]
      rfl
    · intro ht1
      have hne : t1 ≠ m.store.state.token := by
        intro he
        rw [he, htok] at ht1
        exact Bool.false_ne_true ht1
      simp only [runM, stepM, List.append_nil]
      rw [hstart]
      rw [resolveOk_awaitGet now t1 _ m.store.state.token [c] rfl]
      by_cases hcond : (¬ tokenTruthy t1 ∨ dataExpiring (parseToken now t1))
      · rw [if_pos hcond, if_pos ⟨ht1, hne⟩]
        simp [setState, applyUpdate]
      · rw [if_neg hcond]
        exact finishSuccess_token_committed now t1 _ _ _ _ (Or.inl hne)
    · simp only [runM, stepM, List.append_nil]
      rw [hstart]
      rw [resolveOk_awaitGet now t1 _ m.store.state.token [c] rfl]
      by_cases hcond : (¬ tokenTruthy t1 ∨ dataExpiring (parseToken now t1))
      · rw [if_pos hcond, if_pos (hcondiff.mp hcond)]
        by_cases hpub : (tokenTruthy t1 ∧ t1 ≠ m.store.state.token) <;>
          simp [hpub, setState, forcedCalls_append, forcedCalls_notified,
            forcedCalls_nil, forcedCalls_cons_refresh, forcedCalls_cons_get]
      · rw [if_neg hcond, if_neg (fun hh => hcond (hcondiff.mpr hh))]
        by_cases hpub : (tokenTruthy t1 ∧ t1 ≠ m.store.state.token) <;>
          simp [hpub, setState, forcedCalls_append, forcedCalls_notified,
            forcedCalls_nil, forcedCalls_finishSuccess, forcedCalls_cons_get]
    · simp only [runM, stepM, List.append_nil]
      rw [hstart]
      rw [resolveOk_awaitGet now t1 _ m.store.state.token [c] rfl]
      by_cases hcond : (¬ tokenTruthy t1 ∨ dataExpiring (parseToken now t1))
      · rw [if_pos hcond]
        rw [resolveOk_awaitSecond now2 t2 _ true m.store.state.token t1 [c] rfl]
        by_cases hpub : (tokenTruthy t1 ∧ t1 ≠ m.store.state.token) <;>
          · simp [hpub, setState, remoteCalls_append, remoteCalls_notified,
              remoteCalls_nil, remoteCalls_cons_get, remoteCalls_cons_refresh,
              remoteCalls_finishSuccess]
      · rw [if_neg hcond]
        rw [resolveOk_none now2 t2 _ (finishSuccess_inflight ..)]
        by_cases hpub : (tokenTruthy t1 ∧ t1 ≠ m.store.state.token) <;>
          · simp [hpub, setState, remoteCalls_append, remoteCalls_notified,
              remoteCalls_nil, remoteCalls_cons_get, remoteCalls_cons_refresh,
              remoteCalls_finishSuccess]
  · intro htok
    have hstart := callRefresh_start_silent_refresh c m hinf htok
    constructor
    · rw [runM_single]
      simp only [stepM]
      rw [hstart]
      rfl
    · rw [runM_single]
      simp only [stepM]
      rw [hstart]
      rfl

/-- Witness for C10: the empty store's silent refresh performs the get
first, publishes the fresh non-expiring token without a second call, and
a store with a cached truthy token goes straight to the forced refresh. -/
theorem C10_silent_refresh_two_phase_witness :
    (getCalls (runM baseMachine [RunStep.callRefresh 1 true]).2 = 1 ∧
      forcedCalls (runM baseMachine [RunStep.callRefresh 1 true]).2 = 0 ∧
      (tokenTruthy (some tokA) = true →
        (runM baseMachine [RunStep.callRefresh 1 true,
          RunStep.resolveOk 0 (some tokA)]).1.store.state.token = some tokA) ∧
      (forcedCalls (runM baseMachine [RunStep.callRefresh 1 true,
          RunStep.resolveOk 0 (some tokA)]).2 =
        if tokenTruthy (some tokA) = false ∨ dataExpiring (parseToken 0 (some tokA)) = true
        then 1 else 0) ∧
      remoteCalls (runM baseMachine [RunStep.callRefresh 1 true,
        RunStep.resolveOk 0 (some tokA), RunStep.resolveOk 0 (some tokA)]).2 ≤ 2) ∧
    (getCalls (runM (machineWith tokA) [RunStep.callRefresh 1 true]).2 = 0 ∧
      forcedCalls (runM (machineWith tokA) [RunStep.callRefresh 1 true]).2 = 1) :=
  ⟨(C10_silent_refresh_two_phase baseMachine 1 0 0 (some tokA) (some tokA) rfl).1 rfl,
   (C10_silent_refresh_two_phase (machineWith tokA) 1 0 0 (some tokA) (some tokA) rfl).2
      (by decide)⟩

end AuthKit
